import Mathlib

/-!
Verification development for the OrbitEOS simulator core
(`src/orbiteos-simulators/src`): a shallow embedding in Lean 4 of the
device simulators (battery, EV charger, grid meter, solar) and of the
orchestrator tick of `main.py`, together with theorems settling the
specification's claims about them.

Conventions of the embedding:
* Python floats are modelled as exact rationals (`ℚ`); the solar model,
  whose computation is genuinely transcendental (trigonometry), is
  modelled over `ℝ`.
* Python's `round(x, n)` (banker's rounding) is `pyRound`, `int(x)`
  (truncation toward zero) is `pyInt`.
* Calls to `random.uniform` / `random.gauss` and readings of the wall
  clock (`time.time()`, `datetime.now()`) are threaded in explicitly as
  oracle parameters, so every simulator step is a pure function of its
  state, its inputs and its oracles.
-/

/-! ## Python numeric primitives -/

/-- Banker's rounding of a rational to the nearest integer, ties to even,
mirroring Python's `round` on an exact value. -/
def roundHalfEven (q : ℚ) : ℤ :=
  let f : ℤ := ⌊q⌋
  let r : ℚ := q - f
  if r < 1/2 then f
  else if 1/2 < r then f + 1
  else if f % 2 = 0 then f else f + 1

/-- Python's `round(x, n)` on an exact rational value. -/
def pyRound (q : ℚ) (n : ℕ) : ℚ :=
  (roundHalfEven (q * 10 ^ n) : ℚ) / 10 ^ n

/-- Python's `int(x)`: truncation toward zero. -/
def pyInt (q : ℚ) : ℤ :=
  if q < 0 then ⌈q⌉ else ⌊q⌋

/-! ## Register encoding (`main.py`, `_int32_to_registers` /
`_uint32_to_registers`)

Python's `x >> 16` on an `int` is floor division by `2^16` and
`x & 0xFFFF` is the nonnegative remainder mod `2^16`; both are modelled
by `Int.ediv` / `Int.emod` (which agree with floor division and
nonnegative remainder for positive divisors). -/

/-- Embedding of `ModbusSimulatorServer._int32_to_registers`: if the value
is negative add `0x100000000`, then split into the (high, low) 16-bit
register pair, big endian. -/
def int32ToRegisters (value : ℤ) : ℤ × ℤ :=
  let v : ℤ := if value < 0 then value + 4294967296 else value
  ((v / 65536) % 65536, v % 65536)

/-- Embedding of `ModbusSimulatorServer._uint32_to_registers`: mask the
value to 32 bits, then split into the (high, low) 16-bit register pair,
big endian. -/
def uint32ToRegisters (value : ℤ) : ℤ × ℤ :=
  let v : ℤ := value % 4294967296
  ((v / 65536) % 65536, v % 65536)

/-- Big-endian recombination of a (high, low) register pair into an
unsigned 32-bit value. -/
def decodeUint32 (regs : ℤ × ℤ) : ℤ :=
  regs.1 * 65536 + regs.2

/-- Big-endian recombination of a (high, low) register pair, reinterpreting
the 32-bit pattern as two's complement. -/
def decodeInt32 (regs : ℤ × ℤ) : ℤ :=
  let u : ℤ := regs.1 * 65536 + regs.2
  if u ≥ 2147483648 then u - 4294967296 else u

/-! ## Battery simulator (`battery_simulator.py`, `BatterySimulator`) -/

/-- Mutable state of `BatterySimulator` (scalar fields only; the
`random.uniform` voltage jitter is passed in as an oracle on each call
that recomputes the voltage). -/
structure BatState where
  capacity_kwh : ℚ
  max_power_kw : ℚ
  soc : ℚ
  min_soc : ℚ
  max_soc : ℚ
  power_kw : ℚ
  voltage : ℚ
  current : ℚ
  temperature : ℚ
  total_charged_kwh : ℚ
  total_discharged_kwh : ℚ
  cycle_count : ℚ
  is_charging : Bool
  is_discharging : Bool
deriving DecidableEq

/-- Human-readable battery state of `_get_state_string`. -/
inductive BatteryMode where
  | charging | discharging | full | empty | standby
deriving DecidableEq

/-- Embedding of `BatterySimulator._calculate_voltage`: linear
interpolation between `MIN_VOLTAGE = 42.0` and `MAX_VOLTAGE = 57.6` by
SOC, times the `random.uniform(0.995, 1.005)` oracle, rounded to two
decimals. -/
def batteryVoltage (soc variation : ℚ) : ℚ :=
  pyRound ((42 + soc / 100 * (57.6 - 42)) * variation) 2

/-- Embedding of `BatterySimulator._calculate_temperature`. -/
def batteryTemperature (st : BatState) (power_kw dt_seconds : ℚ) : ℚ :=
  let heatFactor := |power_kw| / st.max_power_kw
  let heatGeneration := heatFactor * 0.5
  let cooling := (st.temperature - 20) * 0.01
  let newTemp := st.temperature + (heatGeneration - cooling) * (dt_seconds / 60)
  max 5 (min 45 newTemp)

/-- Embedding of `BatterySimulator._get_efficiency`. -/
def batteryEfficiency (st : BatState) (isCharging : Bool) : ℚ :=
  let baseEfficiency : ℚ := if isCharging then 0.95 else 0.95
  let tempFactor : ℚ :=
    if st.temperature < 15 then 1 - (15 - st.temperature) * 0.005
    else if st.temperature > 25 then 1 - (st.temperature - 25) * 0.003
    else 1
  let socFactor : ℚ :=
    if isCharging then (if st.soc > 90 then 1 - (st.soc - 90) * 0.01 else 1)
    else (if st.soc < 20 then 1 - (20 - st.soc) * 0.01 else 1)
  baseEfficiency * tempFactor * socFactor

/-- Embedding of `BatterySimulator._get_power_limit` (the source's
second branch of each SOC `elif` chain is unreachable, as in the code). -/
def batteryPowerLimit (st : BatState) (isCharging : Bool) : ℚ :=
  let maxPower := st.max_power_kw
  let maxPower : ℚ :=
    if isCharging then
      (if st.soc > 90 then maxPower * ((100 - st.soc) / 10)
       else if st.soc > 95 then maxPower * 0.2
       else maxPower)
    else
      (if st.soc < 15 then maxPower * (st.soc / 15)
       else if st.soc < 10 then maxPower * 0.2
       else maxPower)
  if st.temperature > 40 then maxPower * 0.5
  else if st.temperature > 35 then maxPower * 0.8
  else if st.temperature < 5 then maxPower * 0.3
  else if st.temperature < 10 then maxPower * 0.7
  else maxPower

/-- Embedding of `BatterySimulator._calculate_health`. -/
def batteryHealth (st : BatState) : ℚ :=
  max 80 (100 - st.cycle_count / 5000 * 20)

/-- Embedding of `BatterySimulator._get_state_string`. -/
def batteryModeOf (st : BatState) : BatteryMode :=
  if st.is_charging then .charging
  else if st.is_discharging then .discharging
  else if st.soc ≥ st.max_soc then .full
  else if st.soc ≤ st.min_soc then .empty
  else .standby

/-- Status dictionary returned by `BatterySimulator.get_status`. -/
structure BatStatus where
  soc : ℚ
  power_kw : ℚ
  voltage : ℚ
  current : ℚ
  temperature : ℚ
  capacity_kwh : ℚ
  remaining_kwh : ℚ
  hours_remaining : ℚ
  is_charging : Bool
  is_discharging : Bool
  max_charge_power_kw : ℚ
  max_discharge_power_kw : ℚ
  total_charged_kwh : ℚ
  total_discharged_kwh : ℚ
  cycle_count : ℚ
  health : ℚ
  state : BatteryMode
deriving DecidableEq

/-- Embedding of `BatterySimulator.get_status`. -/
def batteryGetStatus (st : BatState) : BatStatus :=
  let usableSoc := max 0 (st.soc - st.min_soc)
  let remaining := usableSoc / 100 * st.capacity_kwh
  let hoursRemaining : ℚ :=
    if st.is_discharging = true ∧ st.power_kw > 0 then remaining / st.power_kw
    else if st.is_charging = true ∧ st.power_kw < 0 then
      (if st.power_kw ≠ 0 then
        ((st.max_soc - st.soc) / 100 * st.capacity_kwh) / |st.power_kw| else 0)
    else 0
  { soc := pyRound st.soc 1
    power_kw := pyRound st.power_kw 3
    voltage := pyRound st.voltage 2
    current := pyRound st.current 2
    temperature := pyRound st.temperature 1
    capacity_kwh := st.capacity_kwh
    remaining_kwh := pyRound remaining 2
    hours_remaining := pyRound hoursRemaining 2
    is_charging := st.is_charging
    is_discharging := st.is_discharging
    max_charge_power_kw := batteryPowerLimit st true
    max_discharge_power_kw := batteryPowerLimit st false
    total_charged_kwh := pyRound st.total_charged_kwh 2
    total_discharged_kwh := pyRound st.total_discharged_kwh 2
    cycle_count := pyRound st.cycle_count 1
    health := batteryHealth st
    state := batteryModeOf st }

/-- Embedding of `BatterySimulator.__init__` (`variation` is the voltage
jitter oracle of the initial `_calculate_voltage` call). -/
def batteryInit (capacity_kwh max_power_kw initial_soc min_soc max_soc variation : ℚ) :
    BatState :=
  let soc := max min_soc (min max_soc initial_soc)
  { capacity_kwh := capacity_kwh
    max_power_kw := max_power_kw
    soc := soc
    min_soc := min_soc
    max_soc := max_soc
    power_kw := 0
    voltage := batteryVoltage soc variation
    current := 0
    temperature := 20
    total_charged_kwh := 0
    total_discharged_kwh := 0
    cycle_count := 0
    is_charging := false
    is_discharging := false }

/-- Embedding of `BatterySimulator.update`. Sign convention of the
source: positive requested power = discharge, negative = charge. In ℚ a
division by a zero efficiency yields `0` where Python would raise
`ZeroDivisionError`; a zero efficiency is unreachable for the deployed
parameters (temperature is clamped to `[5, 45]` and SOC to the
configured band). -/
def batteryUpdate (st : BatState) (requested_power_kw dt_seconds variation : ℚ) :
    BatState × BatStatus :=
  let isCharging : Bool := decide (requested_power_kw < 0)
  let maxChargePower := batteryPowerLimit st true
  let maxDischargePower := batteryPowerLimit st false
  let actual : ℚ :=
    if isCharging then
      (if st.soc ≥ st.max_soc then 0 else max (-maxChargePower) requested_power_kw)
    else
      (if st.soc ≤ st.min_soc then 0 else min maxDischargePower requested_power_kw)
  let efficiency := batteryEfficiency st isCharging
  let dtHours := dt_seconds / 3600
  let energyChange : ℚ :=
    if isCharging then |actual| * dtHours * efficiency
    else actual * dtHours / efficiency
  let soc1 : ℚ :=
    if isCharging then st.soc + energyChange / st.capacity_kwh * 100
    else st.soc - energyChange / st.capacity_kwh * 100
  let charged' :=
    if isCharging then st.total_charged_kwh + energyChange else st.total_charged_kwh
  let discharged' :=
    if isCharging then st.total_discharged_kwh
    else st.total_discharged_kwh + actual * dtHours
  let soc2 := max st.min_soc (min st.max_soc soc1)
  let cycles' :=
    if |actual| > 0.1 then st.cycle_count + |actual| * dtHours / (2 * st.capacity_kwh)
    else st.cycle_count
  let voltage' := batteryVoltage soc2 variation
  let current' : ℚ := if voltage' > 0 then actual * 1000 / voltage' else 0
  let temperature' := batteryTemperature st actual dt_seconds
  let st' : BatState :=
    { st with
      soc := soc2
      power_kw := actual
      voltage := voltage'
      current := current'
      temperature := temperature'
      total_charged_kwh := charged'
      total_discharged_kwh := discharged'
      cycle_count := cycles'
      is_charging := isCharging && decide (actual ≠ 0)
      is_discharging := !isCharging && decide (actual ≠ 0) }
  (st', batteryGetStatus st')

/-- Embedding of `BatterySimulator.set_soc`. -/
def batterySetSoc (st : BatState) (soc variation : ℚ) : BatState :=
  let soc' := max st.min_soc (min st.max_soc soc)
  { st with soc := soc', voltage := batteryVoltage soc' variation }

/-! ## C2: SOC invariant under arbitrary operation sequences -/

/-- One externally observable operation on a `BatterySimulator`:
an `update` call (with its voltage-jitter oracle) or a `set_soc` call. -/
inductive BatOp where
  | update (requested_power_kw dt_seconds variation : ℚ)
  | setSoc (soc variation : ℚ)
deriving DecidableEq

/-- Time step of an operation is nonnegative (vacuously true for
`set_soc`). -/
def batOpDtOk : BatOp → Bool
  | .update _ dt _ => decide (0 ≤ dt)
  | .setSoc _ _ => true

/-- State transformer of one operation. -/
def batteryStep (st : BatState) (op : BatOp) : BatState :=
  match op with
  | .update req dt v => (batteryUpdate st req dt v).1
  | .setSoc s v => batterySetSoc st s v

/-! ## EV charger simulator (`ev_simulator.py`, `EVChargerSimulator`) -/

/-- OCPP-style charger status (`ChargerStatus` IntEnum of the source). -/
inductive ChargerStatus where
  | available | preparing | charging | suspended_ev | suspended_evse
  | finishing | reserved | unavailable | faulted
deriving DecidableEq

/-- Numeric status code of the `ChargerStatus` IntEnum. -/
def chargerStatusCode : ChargerStatus → ℕ
  | .available => 0
  | .preparing => 1
  | .charging => 2
  | .suspended_ev => 3
  | .suspended_evse => 4
  | .finishing => 5
  | .reserved => 6
  | .unavailable => 7
  | .faulted => 8

/-- Mutable state of `EVChargerSimulator` (the wall-clock-only fields
`session_start` and `last_update` are not represented; the time delta
they produce is threaded into `evUpdate` as the `dt_hours` input). -/
structure EVState where
  max_power_kw : ℚ
  vehicle_capacity_kwh : ℚ
  arrival_hour : ℕ
  departure_hour : ℕ
  max_current : ℚ
  current_limit : ℚ
  status : ChargerStatus
  power_w : ℚ
  session_energy_wh : ℚ
  total_energy_wh : ℚ
  vehicle_connected : Bool
  vehicle_soc : ℚ
  vehicle_target_soc : ℚ
deriving DecidableEq

/-- Schedule test of `_schedule_vehicle` / `update`: should a vehicle be
connected at this hour of day. -/
def evShouldBeConnected (arrival departure hour : ℕ) : Bool :=
  if arrival < departure then decide (arrival ≤ hour ∧ hour < departure)
  else decide (arrival ≤ hour ∨ hour < departure)

/-- Embedding of `EVChargerSimulator.__init__` together with the
`_schedule_vehicle` call it ends with; `hour` is the wall-clock hour read
there and `randSoc` the `random.uniform(20, 50)` arrival-SOC oracle. -/
def evInit (max_power_kw vehicle_capacity_kwh : ℚ) (arrival_hour departure_hour : ℕ)
    (hour : ℕ) (randSoc : ℚ) : EVState :=
  let maxCurrent := max_power_kw * 1000 / (400 * 1.732)
  let connected := evShouldBeConnected arrival_hour departure_hour hour
  { max_power_kw := max_power_kw
    vehicle_capacity_kwh := vehicle_capacity_kwh
    arrival_hour := arrival_hour
    departure_hour := departure_hour
    max_current := maxCurrent
    current_limit := maxCurrent
    status := if connected then .charging else .available
    power_w := 0
    session_energy_wh := 0
    total_energy_wh := 0
    vehicle_connected := connected
    vehicle_soc := if connected then randSoc else 0
    vehicle_target_soc := 80 }

/-- Embedding of `EVChargerSimulator.connect_vehicle` (`none` arguments
are Python `None` defaults; `randSoc` is the `random.uniform(20, 50)`
oracle used when no initial SOC is given). The source's brief `PREPARING`
phase is immediately overwritten by `CHARGING` in the same call. Note the
source's falsy test `target_soc or self.TARGET_SOC` also maps an explicit
target of `0` to the default `80`. -/
def evConnectVehicle (st : EVState) (initial_soc target_soc : Option ℚ) (randSoc : ℚ) :
    EVState :=
  let isoc := initial_soc.getD randSoc
  let tsoc : ℚ :=
    match target_soc with
    | none => 80
    | some t => if t = 0 then 80 else t
  { st with
    vehicle_connected := true
    vehicle_soc := min 100 (max 0 isoc)
    vehicle_target_soc := tsoc
    status := .charging
    session_energy_wh := 0 }

/-- Embedding of `EVChargerSimulator.disconnect_vehicle`. -/
def evDisconnectVehicle (st : EVState) : EVState :=
  { st with
    vehicle_connected := false
    vehicle_soc := 0
    power_w := 0
    status := .available }

/-- Embedding of `EVChargerSimulator.set_current_limit`. -/
def evSetCurrentLimit (st : EVState) (current_a : ℚ) : EVState :=
  { st with current_limit := max 6 (min st.max_current current_a) }

/-- Embedding of `EVChargerSimulator.pause_charging`. -/
def evPauseCharging (st : EVState) : EVState :=
  if st.status = .charging then { st with status := .suspended_evse, power_w := 0 } else st

/-- Embedding of `EVChargerSimulator.resume_charging`. -/
def evResumeCharging (st : EVState) : EVState :=
  if st.status = .suspended_evse ∨ st.status = .suspended_ev then
    (if st.vehicle_soc < st.vehicle_target_soc then { st with status := .charging } else st)
  else st

/-- Embedding of `EVChargerSimulator._calculate_charging_power` (returns
watts); `jitter` is the `random.uniform(0.98, 1.02)` oracle. The
source's `elif soc > 90` branch is unreachable, as in the code. -/
def evCalcChargingPower (st : EVState) (jitter : ℚ) : ℚ :=
  if st.vehicle_connected = false then 0
  else if ¬(st.status = .charging) then 0
  else if st.vehicle_soc ≥ st.vehicle_target_soc then 0
  else
    let powerKw := st.current_limit * 400 * 1.732 / 1000
    let powerKw : ℚ :=
      if st.vehicle_soc > 80 then powerKw * max 0.1 ((100 - st.vehicle_soc) / 20)
      else if st.vehicle_soc > 90 then powerKw * 0.2
      else powerKw
    let powerKw := min powerKw st.max_power_kw
    let powerKw := powerKw * jitter
    powerKw * 1000

/-- SOC after one charging step of `EVChargerSimulator.update`:
`min(100, soc + power·dt·efficiency / (capacity·1000) · 100)`. -/
def evChargedSoc (vehicle_soc vehicle_capacity_kwh power_w dt_hours : ℚ) : ℚ :=
  min 100 (vehicle_soc + power_w * dt_hours * 0.92 / (vehicle_capacity_kwh * 1000) * 100)

/-- Scheduled arrival/departure handling at the head of
`EVChargerSimulator.update`. -/
def evHandleSchedule (st : EVState) (hour : ℕ) (randSoc : ℚ) : EVState :=
  if st.vehicle_connected = false then
    (if evShouldBeConnected st.arrival_hour st.departure_hour hour then
      evConnectVehicle st none none randSoc
    else st)
  else
    let shouldDisconnect : Bool :=
      if st.arrival_hour < st.departure_hour then decide (st.departure_hour ≤ hour)
      else decide (st.departure_hour ≤ hour ∧ hour < st.arrival_hour)
    if shouldDisconnect then evDisconnectVehicle st else st

/-- Status dictionary returned by `EVChargerSimulator.get_status`
(`session_duration_min` depends only on the wall clock and is omitted). -/
structure EVStatus where
  status : ChargerStatus
  status_code : ℕ
  power_w : ℚ
  power_kw : ℚ
  max_power_w : ℚ
  current_limit_a : ℚ
  vehicle_connected : Bool
  vehicle_soc : ℚ
  vehicle_target_soc : ℚ
  session_energy_wh : ℚ
  session_energy_kwh : ℚ
  hours_to_target : ℚ
  total_energy_kwh : ℚ
deriving DecidableEq

/-- Embedding of `EVChargerSimulator.get_status`. -/
def evGetStatus (st : EVState) : EVStatus :=
  let hoursToTarget : ℚ :=
    if st.power_w > 0 ∧ st.vehicle_soc < st.vehicle_target_soc then
      ((st.vehicle_target_soc - st.vehicle_soc) / 100 * st.vehicle_capacity_kwh * 1000)
        / st.power_w
    else 0
  { status := st.status
    status_code := chargerStatusCode st.status
    power_w := pyRound st.power_w 1
    power_kw := pyRound (st.power_w / 1000) 3
    max_power_w := st.max_power_kw * 1000
    current_limit_a := pyRound st.current_limit 1
    vehicle_connected := st.vehicle_connected
    vehicle_soc := pyRound st.vehicle_soc 1
    vehicle_target_soc := st.vehicle_target_soc
    session_energy_wh := pyRound st.session_energy_wh 1
    session_energy_kwh := pyRound (st.session_energy_wh / 1000) 3
    hours_to_target := pyRound hoursToTarget 2
    total_energy_kwh := pyRound (st.total_energy_wh / 1000) 2 }

/-- Embedding of `EVChargerSimulator.update`: schedule handling, power
calculation, SOC/energy integration and the finish transition. `hour` is
the wall-clock hour, `dt_hours` the elapsed time since the previous
update, `jitter` and `randSoc` the two `random.uniform` oracles. -/
def evUpdate (st : EVState) (hour : ℕ) (dt_hours jitter randSoc : ℚ) :
    EVState × EVStatus :=
  let s1 := evHandleSchedule st hour randSoc
  let p := evCalcChargingPower s1 jitter
  let s2 : EVState := { s1 with power_w := p }
  let s3 : EVState :=
    if p > 0 then
      let s : EVState :=
        { s2 with
          vehicle_soc := evChargedSoc s2.vehicle_soc s2.vehicle_capacity_kwh p dt_hours
          session_energy_wh := s2.session_energy_wh + p * dt_hours
          total_energy_wh := s2.total_energy_wh + p * dt_hours }
      if s.vehicle_soc ≥ s.vehicle_target_soc then
        { s with status := .finishing, power_w := 0 }
      else s
    else s2
  (s3, evGetStatus s3)

/-! ## Grid meter simulator (`grid_simulator.py`, `GridSimulator`) -/

/-- Mutable state of `GridSimulator`. The derived field
`reactive_power_var` is irrational (its tan-phi involves a square root)
and is therefore modelled separately over `ℝ` by `gridReactivePower`; it
is a pure function of `power_factor` and the stored `power_w`, so no
information is lost by carrying it outside the rational state. -/
structure GridState where
  max_power_kw : ℚ
  import_energy_wh : ℚ
  export_energy_wh : ℚ
  power_w : ℚ
  voltage_l1 : ℚ
  voltage_l2 : ℚ
  voltage_l3 : ℚ
  current_l1 : ℚ
  current_l2 : ℚ
  current_l3 : ℚ
  frequency : ℚ
  power_factor : ℚ
  import_price : ℚ
  export_price : ℚ
deriving DecidableEq

/-- Oracle inputs of one `GridSimulator.update` call: the wall-clock hour
of `_simulate_voltage`, the three `random.uniform` voltage offsets, the
`random.gauss` frequency variation, the three `random.uniform` phase
imbalance factors and the elapsed `dt` in hours. -/
structure GridRand where
  hour : ℕ
  v1 : ℚ
  v2 : ℚ
  v3 : ℚ
  freqVar : ℚ
  i1 : ℚ
  i2 : ℚ
  i3 : ℚ
  dt_hours : ℚ
deriving DecidableEq

/-- Grid mode classification of `GridSimulator.get_status`. -/
inductive GridMode where
  | importing | exporting | balanced
deriving DecidableEq

/-- Embedding of `GridSimulator.__init__`. -/
def gridInit (max_power_kw initial_import_kwh initial_export_kwh : ℚ) : GridState :=
  { max_power_kw := max_power_kw
    import_energy_wh := initial_import_kwh * 1000
    export_energy_wh := initial_export_kwh * 1000
    power_w := 0
    voltage_l1 := 230
    voltage_l2 := 230
    voltage_l3 := 230
    current_l1 := 0
    current_l2 := 0
    current_l3 := 0
    frequency := 50
    power_factor := 0.95
    import_price := 0.25
    export_price := 0.08 }

/-- Time-of-day base offset of `GridSimulator._simulate_voltage`. -/
def gridBaseOffset (hour : ℕ) : ℚ :=
  if 17 ≤ hour ∧ hour ≤ 21 then -3
  else if 2 ≤ hour ∧ hour ≤ 6 then 2
  else 0

/-- Embedding of `GridSimulator._simulate_voltage`. -/
def gridSimulateVoltage (hour : ℕ) (r1 r2 r3 : ℚ) : ℚ × ℚ × ℚ :=
  let off := gridBaseOffset hour
  let l1 := 230 + off + r1
  let l2 := 230 + off + r2 - 0.5
  let l3 := 230 + off + r3 + 0.3
  (pyRound (max 207 (min 253 l1)) 1,
   pyRound (max 207 (min 253 l2)) 1,
   pyRound (max 207 (min 253 l3)) 1)

/-- Embedding of `GridSimulator._simulate_frequency`. -/
def gridSimulateFrequency (variation : ℚ) : ℚ :=
  max 49.5 (min 50.5 (pyRound (50 + variation) 3))

/-- Embedding of `GridSimulator._calculate_currents` (reads the already
updated phase voltages, as the source does). -/
def gridCalcCurrents (v1 v2 v3 power_factor power_w : ℚ) (r1 r2 r3 : ℚ) :
    ℚ × ℚ × ℚ :=
  let avgVoltage := (v1 + v2 + v3) / 3
  let powerPerPhase := power_w / 3
  let currentPerPhase : ℚ :=
    if avgVoltage > 0 then |powerPerPhase| / (avgVoltage * power_factor) else 0
  (pyRound (currentPerPhase * r1) 2,
   pyRound (currentPerPhase * r2) 2,
   pyRound (currentPerPhase * r3) 2)

/-- Mode classification in `GridSimulator.get_status` (deadband of 50 W
around zero). -/
def gridModeOf (power_w : ℚ) : GridMode :=
  if power_w > 50 then .importing
  else if power_w < -50 then .exporting
  else .balanced

/-- Status dictionary returned by `GridSimulator.get_status` (without the
irrational `reactive_power_var`, see `gridReactivePower`). -/
structure GridStatus where
  power_w : ℚ
  voltage_l1 : ℚ
  voltage_l2 : ℚ
  voltage_l3 : ℚ
  voltage_avg : ℚ
  current_l1 : ℚ
  current_l2 : ℚ
  current_l3 : ℚ
  current_total : ℚ
  frequency : ℚ
  power_factor : ℚ
  import_energy_wh : ℚ
  export_energy_wh : ℚ
  import_energy_kwh : ℚ
  export_energy_kwh : ℚ
  mode : GridMode
  import_price_eur_kwh : ℚ
  export_price_eur_kwh : ℚ
  max_power_kw : ℚ
deriving DecidableEq

/-- Embedding of `GridSimulator.get_status`. -/
def gridGetStatus (st : GridState) : GridStatus :=
  { power_w := pyRound st.power_w 1
    voltage_l1 := st.voltage_l1
    voltage_l2 := st.voltage_l2
    voltage_l3 := st.voltage_l3
    voltage_avg := pyRound ((st.voltage_l1 + st.voltage_l2 + st.voltage_l3) / 3) 1
    current_l1 := st.current_l1
    current_l2 := st.current_l2
    current_l3 := st.current_l3
    current_total := pyRound (st.current_l1 + st.current_l2 + st.current_l3) 2
    frequency := st.frequency
    power_factor := st.power_factor
    import_energy_wh := pyRound st.import_energy_wh 1
    export_energy_wh := pyRound st.export_energy_wh 1
    import_energy_kwh := pyRound (st.import_energy_wh / 1000) 3
    export_energy_kwh := pyRound (st.export_energy_wh / 1000) 3
    mode := gridModeOf st.power_w
    import_price_eur_kwh := st.import_price
    export_price_eur_kwh := st.export_price
    max_power_kw := st.max_power_kw }

/-- Embedding of `GridSimulator.update`: clamp the net power to the
connection capacity, accumulate the energy counters, then refresh
voltages, frequency and currents. -/
def gridUpdate (st : GridState) (net_power_w : ℚ) (r : GridRand) :
    GridState × GridStatus :=
  let maxPowerW := st.max_power_kw * 1000
  let power := max (-maxPowerW) (min maxPowerW net_power_w)
  let energyWh := |power| * r.dt_hours
  let importE := if power > 0 then st.import_energy_wh + energyWh else st.import_energy_wh
  let exportE := if power > 0 then st.export_energy_wh else st.export_energy_wh + energyWh
  let vs := gridSimulateVoltage r.hour r.v1 r.v2 r.v3
  let freq := gridSimulateFrequency r.freqVar
  let is := gridCalcCurrents vs.1 vs.2.1 vs.2.2 st.power_factor power r.i1 r.i2 r.i3
  let st' : GridState :=
    { st with
      power_w := power
      import_energy_wh := importE
      export_energy_wh := exportE
      voltage_l1 := vs.1
      voltage_l2 := vs.2.1
      voltage_l3 := vs.2.2
      current_l1 := is.1
      current_l2 := is.2.1
      current_l3 := is.2.2
      frequency := freq }
  (st', gridGetStatus st')

/-! ## Orchestrator tick (`main.py`, `ModbusSimulatorServer.update_loop`)

The register-store writes of `update_*_registers` publish exactly the
values collected in the returned dictionaries; the embedding carries
those returned values. The solar power itself is computed by the
`ℝ`-valued solar model from the wall clock (see `calculatePowerOutput`
below), so the `power_kw` read from `solar.get_current_status()` enters
the tick as an input. -/

/-- Dictionary returned by `update_solar_registers`. -/
structure SolarData where
  power_w : ℚ
  energy_wh : ℤ
  voltage_v : ℚ
  current_a : ℚ
  status : ℕ
deriving DecidableEq

/-- Embedding of `ModbusSimulatorServer.update_solar_registers`: takes
the current energy accumulator, the `power_kw` of the solar status
snapshot and the elapsed hours since `last_update`; returns the new
accumulator and the published data. -/
def updateSolarRegisters (solarEnergyWh statusPowerKw dt_hours : ℚ) : ℚ × SolarData :=
  let powerW : ℚ := (pyInt (pyRound (statusPowerKw * 1000) 1) : ℚ)
  let energy' := solarEnergyWh + powerW * dt_hours
  let voltageReg : ℤ := pyInt (380 + (powerW / 1000) * 20) * 10
  let voltage : ℚ := (voltageReg : ℚ) / 10
  let currentReg : ℤ := if voltage > 0 then pyInt ((powerW / voltage) * 10) else 0
  (energy',
   { power_w := powerW
     energy_wh := pyInt energy'
     voltage_v := voltage
     current_a := (currentReg : ℚ) / 10
     status := if powerW > 0 then 1 else 0 })

/-- Dictionary returned by `update_battery_registers`. -/
structure BatteryData where
  soc : ℚ
  power_w : ℤ
  voltage_v : ℚ
  current_a : ℚ
  temperature_c : ℚ
  status : ℕ
deriving DecidableEq

/-- Embedding of `ModbusSimulatorServer.update_battery_registers`:
dispatches `load − solar` (in kW, over a 1 s interval) to the battery
and publishes the resulting status. -/
def updateBatteryRegisters (bat : BatState) (solar_power_w load_power_w variation : ℚ) :
    BatState × BatteryData :=
  let netPower := load_power_w - solar_power_w
  let res := batteryUpdate bat (netPower / 1000) 1 variation
  let powerW : ℤ := pyInt (res.2.power_kw * 1000)
  let statusReg : ℕ :=
    if |(powerW : ℚ)| < 50 then 0 else if (powerW : ℚ) < 0 then 1 else 2
  (res.1,
   { soc := res.2.soc
     power_w := powerW
     voltage_v := res.2.voltage
     current_a := res.2.current
     temperature_c := res.2.temperature
     status := statusReg })

/-- Dictionary returned by `update_grid_registers`. -/
structure GridData where
  power_w : ℚ
  voltage_v : ℚ
  frequency_hz : ℚ
  import_energy_wh : ℚ
  export_energy_wh : ℚ
deriving DecidableEq

/-- Embedding of `ModbusSimulatorServer.update_grid_registers`. -/
def updateGridRegisters (grid : GridState) (net_power_w : ℤ) (r : GridRand) :
    GridState × GridData :=
  let res := gridUpdate grid (net_power_w : ℚ) r
  (res.1,
   { power_w := res.2.power_w
     voltage_v := res.2.voltage_l1
     frequency_hz := res.2.frequency
     import_energy_wh := res.2.import_energy_wh
     export_energy_wh := res.2.export_energy_wh })

/-- Dictionary returned by `update_ev_registers`. -/
structure EVData where
  power_w : ℚ
  session_energy_wh : ℚ
  vehicle_soc : ℚ
  status : ChargerStatus
  status_code : ℕ
deriving DecidableEq

/-- Embedding of `ModbusSimulatorServer.update_ev_registers`. -/
def updateEVRegisters (ev : EVState) (hour : ℕ) (dt_hours jitter randSoc : ℚ) :
    EVState × EVData :=
  let res := evUpdate ev hour dt_hours jitter randSoc
  (res.1,
   { power_w := res.2.power_w
     session_energy_wh := res.2.session_energy_wh
     vehicle_soc := res.2.vehicle_soc
     status := res.2.status
     status_code := res.2.status_code })

/-- State owned by the orchestrator across ticks. -/
structure SysState where
  solar_energy_wh : ℚ
  battery : BatState
  grid : GridState
  ev : EVState
deriving DecidableEq

/-- Wall-clock and randomness inputs of one tick of `update_loop`. -/
structure TickIn where
  solar_power_kw : ℚ
  solar_dt_hours : ℚ
  ev_hour : ℕ
  ev_dt_hours : ℚ
  ev_jitter : ℚ
  ev_rand_soc : ℚ
  battery_variation : ℚ
  grid_rand : GridRand
deriving DecidableEq

/-- Per-tick derived quantities of `update_loop` (the telemetry values). -/
structure TickData where
  solar_power_w : ℚ
  ev_power_w : ℚ
  total_load_w : ℚ
  battery_power_w : ℤ
  net_grid_w : ℤ
  grid_power_w : ℚ
deriving DecidableEq

/-- Simulated base house load of `update_loop` (`base_load_w = 800`). -/
def baseLoadW : ℚ := 800

/-- Embedding of one iteration of `ModbusSimulatorServer.update_loop`
(the non-failing path): solar registers, EV registers, total load,
battery dispatch, grid residual, in the source's order. -/
def tick (s : SysState) (i : TickIn) : SysState × TickData :=
  let sr := updateSolarRegisters s.solar_energy_wh i.solar_power_kw i.solar_dt_hours
  let er := updateEVRegisters s.ev i.ev_hour i.ev_dt_hours i.ev_jitter i.ev_rand_soc
  let totalLoadW := baseLoadW + er.2.power_w
  let br := updateBatteryRegisters s.battery sr.2.power_w totalLoadW i.battery_variation
  let netGridW : ℚ := totalLoadW - sr.2.power_w - (br.2.power_w : ℚ)
  let gr := updateGridRegisters s.grid (pyInt netGridW) i.grid_rand
  ({ solar_energy_wh := sr.1, battery := br.1, grid := gr.1, ev := er.1 },
   { solar_power_w := sr.2.power_w
     ev_power_w := er.2.power_w
     total_load_w := totalLoadW
     battery_power_w := br.2.power_w
     net_grid_w := pyInt netGridW
     grid_power_w := gr.2.power_w })

/-! ## C5: failure handling of the tick loop

`update_loop` wraps the whole tick body in a single `try/except`: the
four device updates run in sequence and the first raised exception is
caught outside them all, after which the loop merely logs and sleeps
until the next tick. `guardedTick` embeds that control flow with each
device update abstracted as a fallible step (Python exceptions become
`Except.error`). -/

/-- Control flow of the `try/except` body of `update_loop`: run the four
device updates in their fixed order; the first failure aborts the rest
of the tick body, keeping the updates already applied. -/
def guardedTick {α : Type} (f1 f2 f3 f4 : α → Except Unit α) (s : α) : α :=
  match f1 s with
  | .error _ => s
  | .ok s1 =>
    match f2 s1 with
    | .error _ => s1
    | .ok s2 =>
      match f3 s2 with
      | .error _ => s2
      | .ok s3 =>
        match f4 s3 with
        | .error _ => s3
        | .ok s4 => s4

/-- Solar update raising a model computation error. -/
def c5SolarFailingStep : SysState → Except Unit SysState := fun _ => .error ()

/-- EV update of the tick as a fallible step (concrete tick inputs). -/
def c5EvStep : SysState → Except Unit SysState :=
  fun s => .ok { s with ev := (evUpdate s.ev 20 (1/3600) 1 0).1 }

/-- Battery update of the tick as a fallible step (concrete dispatch). -/
def c5BatteryStep : SysState → Except Unit SysState :=
  fun s => .ok { s with battery := (batteryUpdate s.battery 2 1 1).1 }

/-- Grid update of the tick as a fallible step (concrete residual). -/
def c5GridStep : SysState → Except Unit SysState :=
  fun s => .ok { s with grid := (gridUpdate s.grid 1000 ⟨12, 0, 0, 0, 0, 1, 1, 1, 1⟩).1 }

/-- Concrete system state before the failing tick. -/
def c5Start : SysState :=
  { solar_energy_wh := 0
    battery := batteryInit 13.5 5 50 5 100 1
    grid := gridInit 25 0 0
    ev := evInit 11 60 18 7 20 30 }

/-! ## Solar simulator (`solar_simulator.py`, `SolarSimulator`)

The sun-geometry computation is transcendental, so this component is
modelled over `ℝ`. The timestamp enters as its components used by the
source: day of year and hour/minute/second of day. -/

/-- Banker's rounding on `ℝ`, mirroring `roundHalfEven`. -/
noncomputable def roundHalfEvenR (x : ℝ) : ℤ :=
  let f : ℤ := ⌊x⌋
  let r : ℝ := x - f
  if r < 1/2 then f
  else if 1/2 < r then f + 1
  else if f % 2 = 0 then f else f + 1

/-- Python's `round(x, n)` on an exact real value. -/
noncomputable def pyRoundR (x : ℝ) (n : ℕ) : ℝ :=
  (roundHalfEvenR (x * 10 ^ n) : ℝ) / 10 ^ n

/-- Configuration of a `SolarSimulator` instance. -/
structure SolarSim where
  latitude : ℝ
  longitude : ℝ
  peak_power : ℝ
  panels : ℕ
  efficiency : ℝ

/-- Degrees to radians (`math.radians`). -/
noncomputable def radiansOf (d : ℝ) : ℝ := d * Real.pi / 180

/-- Radians to degrees (`math.degrees`). -/
noncomputable def degreesOf (r : ℝ) : ℝ := r * 180 / Real.pi

/-- Solar declination of `calculate_solar_elevation` (sinusoidal
approximation, amplitude 23.45°). -/
noncomputable def solarDeclination (day : ℕ) : ℝ :=
  23.45 * Real.sin (radiansOf (360 / 365 * ((day : ℝ) - 81)))

/-- Solar time in hours from the timestamp components. -/
noncomputable def solarTimeOf (hour minute second : ℕ) : ℝ :=
  (hour : ℝ) + (minute : ℝ) / 60 + (second : ℝ) / 3600

/-- Embedding of `SolarSimulator.calculate_solar_elevation` (degrees,
clamped to ≥ 0 as in the source). -/
noncomputable def calculateSolarElevation (sim : SolarSim) (day hour minute second : ℕ) :
    ℝ :=
  let declination := solarDeclination day
  let hourAngle := 15 * (solarTimeOf hour minute second - 12)
  let latRad := radiansOf sim.latitude
  let decRad := radiansOf declination
  let hourRad := radiansOf hourAngle
  let elevation := degreesOf (Real.arcsin
    (Real.sin latRad * Real.sin decRad +
      Real.cos latRad * Real.cos decRad * Real.cos hourRad))
  max 0 elevation

/-- Embedding of `SolarSimulator.get_cloud_cover`; `cloudRand` is the
`random.uniform(-0.2, 0.3)` oracle. -/
noncomputable def solarCloudCover (cloudRand : ℝ) : ℝ :=
  max 0 (min 1 (0.3 + cloudRand))

/-- Embedding of `SolarSimulator.get_ambient_temperature`; `tempRand` is
the `random.uniform(-2, 2)` night oracle. -/
noncomputable def solarAmbientTemperature (hour : ℕ) (tempRand : ℝ) : ℝ :=
  if 6 ≤ hour ∧ hour < 12 then 10 + ((hour : ℝ) - 6) * 2
  else if 12 ≤ hour ∧ hour < 18 then 22 - ((hour : ℝ) - 12) * 1.5
  else 8 + tempRand

/-- Oracle inputs of one `calculate_power_output` call. -/
structure SolarRand where
  cloudRand : ℝ
  tempRand : ℝ
  variation : ℝ

/-- Embedding of `SolarSimulator.calculate_power_output` (kW): night
(elevation ≤ 0) returns 0 before any stochastic draw; otherwise
irradiance, cloud and temperature derating and the
`random.uniform(0.97, 1.03)` output jitter are applied. -/
noncomputable def calculatePowerOutput (sim : SolarSim) (day hour minute second : ℕ)
    (cloud_cover : Option ℝ) (r : SolarRand) : ℝ :=
  let elevation := calculateSolarElevation sim day hour minute second
  if elevation ≤ 0 then 0
  else
    let baseIrradiance := 1000 * Real.sin (radiansOf elevation)
    let cc : ℝ := cloud_cover.getD (solarCloudCover r.cloudRand)
    let cloudFactor := 1 - cc * 0.8
    let temp := solarAmbientTemperature hour r.tempRand
    let tempFactor := 1 - max 0 (temp - 25) * 0.004
    let irradiance := baseIrradiance * cloudFactor
    let powerKw := irradiance / 1000 * sim.peak_power * tempFactor * sim.efficiency
    pyRoundR (max 0 (powerKw * r.variation)) 3

/-- The simulator instance constructed by `main.py` for the deployed
location (Amsterdam defaults). -/
noncomputable def solarMain : SolarSim :=
  { latitude := 52.3676
    longitude := 4.9041
    peak_power := 6
    panels := 20
    efficiency := 0.85 }

/-- Embedding of `GridSimulator._calculate_reactive_power` (modelled
over `ℝ` because `tan φ = sqrt(1 − pf²)/pf` is irrational for the
deployed power factor 0.95); it is a pure function of the power factor
and the stored active power. -/
noncomputable def gridReactivePower (power_factor active_power_w : ℝ) : ℝ :=
  if power_factor ≥ 1 then 0
  else
    let tanPhi := Real.sqrt (1 - power_factor ^ 2) / power_factor
    let reactivePower := |active_power_w| * tanPhi
    if active_power_w > 0 then pyRoundR reactivePower 1 else pyRoundR (-reactivePower) 1

/-! ## Theorems -/

theorem pyRound_zero (n : ℕ) : pyRound 0 n = 0 := by
  simp [pyRound, roundHalfEven]

/-- Truncation toward zero moves a value by strictly less than one. -/
theorem abs_pyInt_sub_lt_one (q : ℚ) : |(pyInt q : ℚ) - q| < 1 := by
  unfold pyInt
  split
  · rw [abs_sub_lt_iff]
    exact ⟨by have h := Int.ceil_lt_add_one q; linarith,
           by have h := Int.le_ceil q; linarith⟩
  · rw [abs_sub_lt_iff]
    exact ⟨by have h := Int.floor_le q; linarith,
           by have h := Int.lt_floor_add_one q; linarith⟩

/-- C3: for every representable 32-bit value — every signed integer in
`[-2^31, 2^31)` encoded by `_int32_to_registers` and every unsigned
integer in `[0, 2^32)` encoded by `_uint32_to_registers` — recombining
the returned (high, low) register pair big endian (for the signed case
reinterpreting the pattern as two's complement) yields the value again:
`decode(encode(v)) = v`. -/
theorem int32_uint32_roundtrip :
    (∀ v : ℤ, -2147483648 ≤ v → v < 2147483648 →
      decodeInt32 (int32ToRegisters v) = v) ∧
    (∀ v : ℤ, 0 ≤ v → v < 4294967296 →
      decodeUint32 (uint32ToRegisters v) = v) := by
  constructor
  · intro v h1 h2
    unfold int32ToRegisters decodeInt32
    split <;> (rename_i h; simp only []; omega)
  · intro v h1 h2
    unfold uint32ToRegisters decodeUint32
    simp only []
    omega

theorem int32_uint32_roundtrip_witness :
    decodeInt32 (int32ToRegisters (-5)) = -5 ∧
    decodeUint32 (uint32ToRegisters 70000) = 70000 :=
  ⟨int32_uint32_roundtrip.1 (-5) (by norm_num) (by norm_num),
   int32_uint32_roundtrip.2 70000 (by norm_num) (by norm_num)⟩

/-- C7 counterexample: at `value = 2^31` (one above the representable
signed range) the encoder produces the same register pair as `-2^31`
(silent wrap modulo `2^32`), not the pair of the clamped bound
`2^31 - 1`; no clamping or flagging takes place. -/
theorem int32_overflow_wraps_not_clamps :
    int32ToRegisters 2147483648 = int32ToRegisters (-2147483648) ∧
    int32ToRegisters 2147483648 ≠ int32ToRegisters 2147483647 ∧
    decodeInt32 (int32ToRegisters 2147483648) = -2147483648 := by
  refine ⟨by decide, by decide, by decide⟩

/-- C7 amended: for every integer value (in particular every value outside
the representable 32-bit range of its field) both encoders silently wrap
the value modulo `2^32`: the encoded register pair recombines to
`value mod 2^32`, never to a clamped bound, and no flag is raised. -/
theorem int32_uint32_encode_wraps (v : ℤ) :
    decodeUint32 (int32ToRegisters v) = v % 4294967296 ∧
    decodeUint32 (uint32ToRegisters v) = v % 4294967296 := by
  constructor
  · unfold int32ToRegisters decodeUint32
    split <;> (simp only []; omega)
  · unfold uint32ToRegisters decodeUint32
    simp only []
    omega

theorem int32_uint32_encode_wraps_witness :
    decodeUint32 (int32ToRegisters 5000000000) = (5000000000 : ℤ) % 4294967296 ∧
    decodeUint32 (uint32ToRegisters 5000000000) = (5000000000 : ℤ) % 4294967296 :=
  int32_uint32_encode_wraps 5000000000

theorem clamp_bounds {lo hi x : ℚ} (h : lo ≤ hi) :
    lo ≤ max lo (min hi x) ∧ max lo (min hi x) ≤ hi :=
  ⟨le_max_left _ _, max_le h (min_le_left _ _)⟩

theorem batteryStep_fixed (st : BatState) (op : BatOp) :
    (batteryStep st op).min_soc = st.min_soc ∧
    (batteryStep st op).max_soc = st.max_soc := by
  cases op <;> exact ⟨rfl, rfl⟩

theorem batteryStep_soc_mem (st : BatState) (op : BatOp)
    (h : st.min_soc ≤ st.max_soc) :
    st.min_soc ≤ (batteryStep st op).soc ∧ (batteryStep st op).soc ≤ st.max_soc := by
  cases op with
  | update req dt v =>
    simp only [batteryStep, batteryUpdate]
    exact clamp_bounds h
  | setSoc s v =>
    simp only [batteryStep, batterySetSoc]
    exact clamp_bounds h

theorem foldl_batteryStep_soc_mem (l : List BatOp) (st : BatState)
    (h : st.min_soc ≤ st.max_soc)
    (h1 : st.min_soc ≤ st.soc) (h2 : st.soc ≤ st.max_soc) :
    (l.foldl batteryStep st).min_soc = st.min_soc ∧
    (l.foldl batteryStep st).max_soc = st.max_soc ∧
    st.min_soc ≤ (l.foldl batteryStep st).soc ∧
    (l.foldl batteryStep st).soc ≤ st.max_soc := by
  induction l generalizing st with
  | nil => exact ⟨rfl, rfl, h1, h2⟩
  | cons op rest ih =>
    obtain ⟨hfmin, hfmax⟩ := batteryStep_fixed st op
    obtain ⟨hm1, hm2⟩ := batteryStep_soc_mem st op h
    have := ih (batteryStep st op) (by rw [hfmin, hfmax]; exact h)
      (by rw [hfmin]; exact hm1) (by rw [hfmax]; exact hm2)
    simpa [List.foldl_cons, hfmin, hfmax] using this

/-- C2: for every sequence of `update` calls with arbitrary requested
powers and nonnegative time steps, with arbitrary `set_soc` calls
interleaved, the battery SOC lies in `[min_soc, max_soc]` at every
observable point: after construction (`k = 0`) and after every
operation (`k`-th point of the sequence). -/
theorem battery_soc_invariant
    (capacity maxP initSoc minS maxS v0 : ℚ) (ops : List BatOp) (k : ℕ)
    (hminmax : minS ≤ maxS)
    (hdt : ∀ op ∈ ops, batOpDtOk op = true) :
    minS ≤ ((ops.take k).foldl batteryStep
      (batteryInit capacity maxP initSoc minS maxS v0)).soc ∧
    ((ops.take k).foldl batteryStep
      (batteryInit capacity maxP initSoc minS maxS v0)).soc ≤ maxS := by
  have hinit := clamp_bounds (x := initSoc) hminmax
  have h := foldl_batteryStep_soc_mem (ops.take k)
    (batteryInit capacity maxP initSoc minS maxS v0) hminmax hinit.1 hinit.2
  exact ⟨h.2.2.1, h.2.2.2⟩

theorem battery_soc_invariant_witness :
    (5 : ℚ) ≤ (([BatOp.update (-3) 1 1, BatOp.setSoc 200 1,
        BatOp.update 1000 0.5 1].take 3).foldl batteryStep
      (batteryInit 13.5 5 50 5 100 1)).soc ∧
    (([BatOp.update (-3) 1 1, BatOp.setSoc 200 1,
        BatOp.update 1000 0.5 1].take 3).foldl batteryStep
      (batteryInit 13.5 5 50 5 100 1)).soc ≤ 100 :=
  battery_soc_invariant 13.5 5 50 5 100 1
    [BatOp.update (-3) 1 1, BatOp.setSoc 200 1, BatOp.update 1000 0.5 1] 3
    (by norm_num) (by intro op hop; fin_cases hop <;> simp [batOpDtOk] <;> norm_num)

/-! ## C4: power accounting when the SOC clamp bites -/

theorem rat_abs_ite (q : ℚ) : |q| = if 0 ≤ q then q else -q := by
  split
  · exact abs_of_nonneg (by assumption)
  · exact abs_of_neg (lt_of_not_le (by assumption))

/-- C4 counterexample: battery of 1 kWh at SOC 99 % (band `[5, 100]`),
charge request −5 kW for a 7200 s step. The taper limits the request to
−0.5 kW; the step would add 86.45 SOC points, so the clamp to 100 %
discards nearly all of the energy — yet the stored and reported power
keep the full pre-clamp −0.5 kW (not the value matching the 0.01 kWh
actually absorbed, and not zero), refuting the claim. -/
theorem battery_clamp_power_counterexample :
    ((batteryInit 1 5 99 5 100 1).soc
        + |(batteryUpdate (batteryInit 1 5 99 5 100 1) (-5) 7200 1).1.power_kw|
          * (7200 / 3600) * batteryEfficiency (batteryInit 1 5 99 5 100 1) true
          / (batteryInit 1 5 99 5 100 1).capacity_kwh * 100
      ≠ (batteryUpdate (batteryInit 1 5 99 5 100 1) (-5) 7200 1).1.soc) ∧
    (batteryUpdate (batteryInit 1 5 99 5 100 1) (-5) 7200 1).1.power_kw = -(1/2) ∧
    (batteryUpdate (batteryInit 1 5 99 5 100 1) (-5) 7200 1).2.power_kw = -(1/2) ∧
    (|(batteryUpdate (batteryInit 1 5 99 5 100 1) (-5) 7200 1).1.power_kw|
        * (7200 / 3600) * batteryEfficiency (batteryInit 1 5 99 5 100 1) true
      ≠ ((batteryUpdate (batteryInit 1 5 99 5 100 1) (-5) 7200 1).1.soc
          - (batteryInit 1 5 99 5 100 1).soc) / 100
          * (batteryInit 1 5 99 5 100 1).capacity_kwh) ∧
    (batteryUpdate (batteryInit 1 5 99 5 100 1) (-5) 7200 1).1.power_kw ≠ 0 ∧
    (batteryUpdate (batteryInit 1 5 99 5 100 1) (-5) 7200 1).1.soc
      = (batteryInit 1 5 99 5 100 1).max_soc := by
  refine ⟨?_, ?_, ?_, ?_, ?_, ?_⟩ <;>
    norm_num [batteryUpdate, batteryInit, batteryPowerLimit, batteryEfficiency,
      batteryGetStatus, pyRound, roundHalfEven, min_def, max_def, rat_abs_ite]

/-- C4 amended: the battery zeroes the actual power only when the SOC is
already at or beyond the relevant bound before the step (`soc ≥ max_soc`
for a charge request, `soc ≤ min_soc` for a discharge request).
Otherwise the stored actual power is exactly the limit-clamped requested
power, regardless of whether the end-of-step SOC clamp discards energy:
a mid-step overshoot keeps the full pre-clamp power and the excess
energy is silently discarded. -/
theorem battery_power_zero_only_at_boundary (st : BatState) (req dt v : ℚ) :
    (req < 0 → st.max_soc ≤ st.soc →
      (batteryUpdate st req dt v).1.power_kw = 0) ∧
    (0 ≤ req → st.soc ≤ st.min_soc →
      (batteryUpdate st req dt v).1.power_kw = 0) ∧
    (req < 0 → st.soc < st.max_soc →
      (batteryUpdate st req dt v).1.power_kw = max (-(batteryPowerLimit st true)) req) ∧
    (0 ≤ req → st.min_soc < st.soc →
      (batteryUpdate st req dt v).1.power_kw = min (batteryPowerLimit st false) req) := by
  refine ⟨fun h1 h2 => ?_, fun h1 h2 => ?_, fun h1 h2 => ?_, fun h1 h2 => ?_⟩
  · simp [batteryUpdate, h1, h2]
  · simp [batteryUpdate, h1.not_lt, h2]
  · simp [batteryUpdate, h1, h2.not_le]
  · simp [batteryUpdate, h1.not_lt, h2.not_le]

theorem battery_power_zero_only_at_boundary_witness :
    (batteryUpdate (batteryInit 13.5 5 100 5 100 1) (-3) 1 1).1.power_kw = 0 :=
  (battery_power_zero_only_at_boundary (batteryInit 13.5 5 100 5 100 1) (-3) 1 1).1
    (by norm_num) (by norm_num [batteryInit, min_def, max_def])

/-! ## C6: termination at target SOC -/

/-- C6: if during an `update` call the charging power is positive and the
integrated SOC reaches or exceeds the target SOC, the charger
transitions to `Finishing` (status code 5) and the stored and reported
charging power become 0; and on every update entered with a connected
vehicle whose SOC is already at or above target, the stored and reported
charging power are 0. -/
theorem ev_target_reached_finishing (st : EVState) (hour : ℕ) (dtH jitter randSoc : ℚ) :
    (0 < evCalcChargingPower (evHandleSchedule st hour randSoc) jitter →
      (evHandleSchedule st hour randSoc).vehicle_target_soc ≤
        evChargedSoc (evHandleSchedule st hour randSoc).vehicle_soc
          (evHandleSchedule st hour randSoc).vehicle_capacity_kwh
          (evCalcChargingPower (evHandleSchedule st hour randSoc) jitter) dtH →
      (evUpdate st hour dtH jitter randSoc).1.status = ChargerStatus.finishing ∧
      chargerStatusCode (evUpdate st hour dtH jitter randSoc).1.status = 5 ∧
      (evUpdate st hour dtH jitter randSoc).1.power_w = 0 ∧
      (evUpdate st hour dtH jitter randSoc).2.power_w = 0) ∧
    (st.vehicle_connected = true → st.vehicle_target_soc ≤ st.vehicle_soc →
      (evUpdate st hour dtH jitter randSoc).1.power_w = 0 ∧
      (evUpdate st hour dtH jitter randSoc).2.power_w = 0) := by
  constructor
  · intro hp htgt
    have hcond : evChargedSoc (evHandleSchedule st hour randSoc).vehicle_soc
        (evHandleSchedule st hour randSoc).vehicle_capacity_kwh
        (evCalcChargingPower (evHandleSchedule st hour randSoc) jitter) dtH ≥
        (evHandleSchedule st hour randSoc).vehicle_target_soc := htgt
    simp only [evUpdate, evGetStatus]
    rw [if_pos hp]
    rw [if_pos hcond]
    exact ⟨rfl, rfl, rfl, pyRound_zero 1⟩
  · intro hconn htgt
    have hps : evHandleSchedule st hour randSoc = st ∨
        evHandleSchedule st hour randSoc = evDisconnectVehicle st := by
      unfold evHandleSchedule
      rw [hconn]
      simp only [Bool.true_eq_false, if_false]
      split
      · split
        · exact Or.inr rfl
        · exact Or.inl rfl
      · split
        · exact Or.inr rfl
        · exact Or.inl rfl
    have hp0 : evCalcChargingPower (evHandleSchedule st hour randSoc) jitter = 0 := by
      rcases hps with h | h <;> rw [h]
      · unfold evCalcChargingPower
        rcases eq_or_ne st.status ChargerStatus.charging with hs | hs
        · rw [hconn]
          simp [hs, htgt]
        · simp [hconn, hs]
      · unfold evCalcChargingPower evDisconnectVehicle
        simp
    simp only [evUpdate, evGetStatus, hp0]
    norm_num
    exact pyRound_zero 1

theorem ev_target_reached_finishing_witness :
    (evUpdate (evInit 11 60 18 7 20 30) 20 10 1 0).1.status = ChargerStatus.finishing ∧
    chargerStatusCode (evUpdate (evInit 11 60 18 7 20 30) 20 10 1 0).1.status = 5 ∧
    (evUpdate (evInit 11 60 18 7 20 30) 20 10 1 0).1.power_w = 0 ∧
    (evUpdate (evInit 11 60 18 7 20 30) 20 10 1 0).2.power_w = 0 :=
  (ev_target_reached_finishing (evInit 11 60 18 7 20 30) 20 10 1 0).1
    (by norm_num [evInit, evShouldBeConnected, evHandleSchedule, evCalcChargingPower,
      min_def, max_def])
    (by norm_num [evInit, evShouldBeConnected, evHandleSchedule, evCalcChargingPower,
      evChargedSoc, min_def, max_def])

/-! ## C10: smart-charging current-limit clamp -/

/-- C10: for every argument `current_a` of `set_current_limit`
(including zero and negative values), provided the charger's
`max_current = max_power_kw·1000 / (400·1.732)` is at least the 6 A
minimum (true of the deployed 11 kW charger), the resulting
`current_limit` lies in `[6, max_current]`; in particular it is never
below 6 A, so smart charging cannot force the charging power to zero. -/
theorem ev_current_limit_bounded (st : EVState) (current_a : ℚ)
    (hmc : st.max_current = st.max_power_kw * 1000 / (400 * 1.732))
    (h6 : 6 ≤ st.max_current) :
    6 ≤ (evSetCurrentLimit st current_a).current_limit ∧
    (evSetCurrentLimit st current_a).current_limit ≤ st.max_current := by
  constructor
  · exact le_max_left _ _
  · exact max_le h6 (min_le_left _ _)

theorem ev_current_limit_bounded_witness :
    6 ≤ (evSetCurrentLimit (evInit 11 60 18 7 20 30) (-3)).current_limit ∧
    (evSetCurrentLimit (evInit 11 60 18 7 20 30) (-3)).current_limit ≤
      (evInit 11 60 18 7 20 30).max_current :=
  ev_current_limit_bounded (evInit 11 60 18 7 20 30) (-3)
    (by norm_num [evInit]) (by norm_num [evInit])

/-- C9: a grid update whose net power exceeds the configured connection
capacity `max_power_kw × 1000` in magnitude stores and reports the power
clamped to `±max_power` (for any physically meaningful nonnegative
configured capacity). -/
theorem grid_power_clamped (st : GridState) (net : ℚ) (r : GridRand)
    (hmax : 0 ≤ st.max_power_kw) :
    (st.max_power_kw * 1000 < net →
      (gridUpdate st net r).1.power_w = st.max_power_kw * 1000 ∧
      (gridUpdate st net r).2.power_w = pyRound (st.max_power_kw * 1000) 1) ∧
    (net < -(st.max_power_kw * 1000) →
      (gridUpdate st net r).1.power_w = -(st.max_power_kw * 1000) ∧
      (gridUpdate st net r).2.power_w = pyRound (-(st.max_power_kw * 1000)) 1) := by
  have hm : (0 : ℚ) ≤ st.max_power_kw * 1000 := mul_nonneg hmax (by norm_num)
  constructor
  · intro hnet
    have h1 : min (st.max_power_kw * 1000) net = st.max_power_kw * 1000 :=
      min_eq_left hnet.le
    have h2 : max (-(st.max_power_kw * 1000)) (st.max_power_kw * 1000) =
        st.max_power_kw * 1000 := max_eq_right (neg_le_self hm)
    exact ⟨by simp only [gridUpdate, h1, h2],
           by simp only [gridUpdate, gridGetStatus, h1, h2]⟩
  · intro hnet
    have h1 : min (st.max_power_kw * 1000) net = net :=
      min_eq_right (hnet.le.trans (by linarith))
    have h2 : max (-(st.max_power_kw * 1000)) net = -(st.max_power_kw * 1000) :=
      max_eq_left hnet.le
    exact ⟨by simp only [gridUpdate, h1, h2],
           by simp only [gridUpdate, gridGetStatus, h1, h2]⟩

theorem grid_power_clamped_witness :
    (gridUpdate (gridInit 25 0 0) 30000 ⟨12, 0, 0, 0, 0, 1, 1, 1, 1⟩).1.power_w = 25000 ∧
    (gridUpdate (gridInit 25 0 0) 30000 ⟨12, 0, 0, 0, 0, 1, 1, 1, 1⟩).2.power_w = 25000 := by
  have h := (grid_power_clamped (gridInit 25 0 0) 30000 ⟨12, 0, 0, 0, 0, 1, 1, 1, 1⟩
    (by norm_num [gridInit])).1 (by norm_num [gridInit])
  refine ⟨h.1.trans ?_, h.2.trans ?_⟩
  · norm_num [gridInit]
  · norm_num [gridInit, pyRound, roundHalfEven]

theorem charge_discharge_split (a c b : ℚ) :
    a + max 0 (-b) - c - max 0 b = a - c - b := by
  rcases le_total 0 b with h | h
  · rw [max_eq_right h, max_eq_left (neg_nonpos.mpr h)]
    ring
  · rw [max_eq_left h, max_eq_right (neg_nonneg.mpr h)]
    ring

/-- C1: on every tick, the net power passed to the grid meter is exactly
the truncation of `load − solar − battery_power` (all taken from the
same tick's published values, `load = base_load + ev_power`); it is
within 1 W (the truncation tolerance) of the exact balance, and the
balance is equivalently `load + battery_charge − solar −
battery_discharge` with charge/discharge the negative/positive parts of
the signed battery power. -/
theorem tick_balance_identity (s : SysState) (i : TickIn) :
    ((tick s i).2.net_grid_w =
      pyInt (baseLoadW + (tick s i).2.ev_power_w - (tick s i).2.solar_power_w
        - ((tick s i).2.battery_power_w : ℚ))) ∧
    (|((tick s i).2.net_grid_w : ℚ) - (baseLoadW + (tick s i).2.ev_power_w
        - (tick s i).2.solar_power_w - ((tick s i).2.battery_power_w : ℚ))| < 1) ∧
    (baseLoadW + (tick s i).2.ev_power_w
        + max 0 (-((tick s i).2.battery_power_w : ℚ))
        - (tick s i).2.solar_power_w - max 0 ((tick s i).2.battery_power_w : ℚ) =
      baseLoadW + (tick s i).2.ev_power_w - (tick s i).2.solar_power_w
        - ((tick s i).2.battery_power_w : ℚ)) := by
  refine ⟨rfl, abs_pyInt_sub_lt_one _, ?_⟩
  have h := charge_discharge_split (baseLoadW + (tick s i).2.ev_power_w)
    ((tick s i).2.solar_power_w) (((tick s i).2.battery_power_w : ℚ))
  linarith [h]

/-- C5 counterexample: with the solar update raising, the whole tick is
aborted — the system state is completely unchanged — although the EV and
battery updates of that same tick would each have changed their device's
state. The other three devices' updates therefore do not execute,
refuting the per-device isolation claim. -/
theorem tick_failure_not_isolated_counterexample :
    guardedTick c5SolarFailingStep c5EvStep c5BatteryStep c5GridStep c5Start = c5Start ∧
    (batteryUpdate c5Start.battery 2 1 1).1.soc ≠ c5Start.battery.soc ∧
    (evUpdate c5Start.ev 20 (1/3600) 1 0).1.vehicle_soc ≠ c5Start.ev.vehicle_soc := by
  refine ⟨rfl, ?_, ?_⟩
  · norm_num [c5Start, batteryUpdate, batteryInit, batteryPowerLimit, batteryEfficiency,
      min_def, max_def, rat_abs_ite]
  · norm_num [c5Start, evUpdate, evInit, evHandleSchedule, evShouldBeConnected,
      evCalcChargingPower, evChargedSoc, evConnectVehicle, min_def, max_def]

/-- C5 amended: a failure in a device update aborts the remainder of the
tick body instead of being isolated per device: if the first (solar)
update raises, no device is updated that tick and the state is returned
unchanged; if a later update raises, only the devices before it keep
that tick's updates and all subsequent updates are skipped. The loop
then continues with the next tick. -/
theorem guardedTick_aborts_on_failure {α : Type} (f1 f2 f3 f4 : α → Except Unit α)
    (s : α) :
    (∀ e, f1 s = .error e → guardedTick f1 f2 f3 f4 s = s) ∧
    (∀ s1 e, f1 s = .ok s1 → f2 s1 = .error e →
      guardedTick f1 f2 f3 f4 s = s1) := by
  constructor
  · intro e h
    unfold guardedTick
    rw [h]
  · intro s1 e h1 h2
    simp [guardedTick, h1, h2]

theorem guardedTick_aborts_on_failure_witness :
    guardedTick c5SolarFailingStep c5EvStep c5BatteryStep c5GridStep c5Start = c5Start :=
  (guardedTick_aborts_on_failure c5SolarFailingStep c5EvStep c5BatteryStep c5GridStep
    c5Start).1 () rfl

theorem solar_midnight_equinox_elevation_nonpos :
    calculateSolarElevation solarMain 81 0 0 0 ≤ 0 := by
  unfold calculateSolarElevation
  apply max_le le_rfl
  have hdec : solarDeclination 81 = 0 := by
    unfold solarDeclination radiansOf
    norm_num
  have hst : solarTimeOf 0 0 0 = 0 := by
    unfold solarTimeOf
    norm_num
  rw [hdec, hst]
  have hhr : radiansOf (15 * ((0 : ℝ) - 12)) = -Real.pi := by
    unfold radiansOf
    ring
  have hzero : radiansOf 0 = 0 := by
    unfold radiansOf
    ring
  rw [hhr, hzero, Real.sin_zero, Real.cos_zero, Real.cos_neg, Real.cos_pi]
  have hlat : (0 : ℝ) < Real.cos (radiansOf solarMain.latitude) := by
    apply Real.cos_pos_of_mem_Ioo
    unfold radiansOf solarMain
    constructor
    · have h1 : (0 : ℝ) < 52.3676 * Real.pi / 180 := by positivity
      have h2 : (0 : ℝ) < Real.pi / 2 := by positivity
      linarith
    · have h : (52.3676 : ℝ) * Real.pi / 180 < Real.pi / 2 := by
        rw [div_lt_div_iff₀ (by norm_num) (by norm_num)]
        nlinarith [Real.pi_pos]
      exact h
  unfold degreesOf
  rw [div_nonpos_iff]
  right
  constructor
  · apply mul_nonpos_of_nonpos_of_nonneg _ (by norm_num)
    rw [Real.arcsin_nonpos]
    nlinarith [hlat]
  · exact Real.pi_nonneg

/-- C8: a deterministic fixing of the solar model exists: for some
admissible inputs — a fixed timestamp (day 81 at 00:00:00, where the
computed elevation is ≤ 0) and an explicitly supplied `cloud_cover`
argument — any two calls to `calculate_power_output` with the same
inputs return the same power value, whatever the random draws. -/
theorem solar_deterministic_mode_exists :
    ∃ (day hour minute second : ℕ) (cc : ℝ),
      ∀ r1 r2 : SolarRand,
        calculatePowerOutput solarMain day hour minute second (some cc) r1 =
          calculatePowerOutput solarMain day hour minute second (some cc) r2 := by
  refine ⟨81, 0, 0, 0, 0, fun r1 r2 => ?_⟩
  unfold calculatePowerOutput
  rw [if_pos solar_midnight_equinox_elevation_nonpos,
    if_pos solar_midnight_equinox_elevation_nonpos]
